import Mathlib

/-!
Verification development for the authentication and authorization subsystem
of the book-platform backend (FastAPI service).  The Python source is
shallowly embedded: request handlers and dependency functions become pure
Lean functions over an explicit database state, HTTP exceptions become an
error type carried in Except, and wall-clock time is passed explicitly as
a natural number of seconds.
-/

deriving instance DecidableEq for Except

namespace BookPlatform

/-! ### JSON-like claim values (payload entries of a JWT) -/

/-- A JSON-ish value as stored in a token claim set. -/
inductive JVal where
  | str (s : String)
  | num (n : Nat)
  | bool (b : Bool)
deriving DecidableEq, Repr

/-- A token payload: a Python dict from claim name to value.
Python dicts have unique keys; lookup returns the first match. -/
abbrev Payload := List (String × JVal)

/-- Dict lookup (payload.get(k)): first entry with the given key. -/
def lookupKey : Payload → String → Option JVal
  | [], _ => none
  | (k', v) :: rest, k => if k' = k then some v else lookupKey rest k

/-- Python dict update d[k] = v: removes any entry for k and appends (k, v).
Lookup semantics match dict assignment (other keys unaffected, k maps to v). -/
def setKey (p : Payload) (k : String) (v : JVal) : Payload :=
  p.filter (fun q => q.1 != k) ++ [(k, v)]

/-! ### HTTP errors (fastapi.HTTPException) -/

/-- An HTTPException as raised by the handlers: status code, detail string,
and whether the WWW-Authenticate: Bearer header is attached. -/
structure HttpError where
  status_code : Nat
  detail : String
  www_authenticate_bearer : Bool := false
deriving DecidableEq, Repr

/-- The generic 401 credentials exception shared by all token paths
(detail "Could not validate credentials", WWW-Authenticate: Bearer). -/
def credentialsException : HttpError :=
  ⟨401, "Could not validate credentials", true⟩

/-- An uncaught Python exception surfaces as a 500 response. -/
def internalServerError : HttpError := ⟨500, "Internal Server Error", false⟩

/-! ### JWT codec (python-jose boundary)

Modelled from the library contract of python-jose used by the source:
jwt.encode signs the payload with a symmetric secret; jwt.decode rejects a
token whose signature was made with a different key and raises
ExpiredSignatureError when the exp claim is in the past (exp < now,
zero leeway).  A token is modelled as its payload plus the signing key. -/

/-- A signed token: the claim payload together with the key it was signed
with (standing for the signature). -/
structure Jwt where
  payload : Payload
  secret : String
deriving DecidableEq, Repr

/-- Decode failures of the JWT library (subclasses of JWTError). -/
inductive JwtError where
  | invalidSignature
  | expired
deriving DecidableEq, Repr

/-- security.py SECRET_KEY (same constant in auth.py and unified_auth.py). -/
def SECRET_KEY : String := "N93qNdu1uEX7oKM3ZQnHdV02TIuRt4umLG07eV4JhzI"

/-- security.py ACCESS_TOKEN_EXPIRE_MINUTES. -/
def ACCESS_TOKEN_EXPIRE_MINUTES : Nat := 90

/-- jwt.decode(token, key, algorithms=[HS256]): wrong key fails the
signature check; an exp claim strictly in the past raises
ExpiredSignatureError; otherwise the payload is returned. -/
def jwtDecode (token : Jwt) (key : String) (now : Nat) : Except JwtError Payload :=
  if token.secret ≠ key then .error .invalidSignature
  else
    match lookupKey token.payload "exp" with
    | some (.num e) => if e < now then .error .expired else .ok token.payload
    | _ => .ok token.payload

/-- security.create_access_token(data, expires_delta): copies the dict,
sets exp to now + expires_delta (default 15 minutes) and signs with
SECRET_KEY.  Time and deltas are in seconds. -/
def create_access_token (data : Payload) (now : Nat)
    (expires_delta : Option Nat) : Jwt :=
  let expire := now + expires_delta.getD (15 * 60)
  { payload := setKey data "exp" (.num expire), secret := SECRET_KEY }

/-! ### Python string primitives

str.startswith and str.replace are embedded as structural functions over
the character list of the string, so that closed instances evaluate. -/

/-- Python str.startswith(pre). -/
def pyStartsWith (s pre : String) : Bool :=
  pre.data.isPrefixOf s.data

/-- Helper for pyReplace: fuel-structured scan replacing every
non-overlapping occurrence of patt, left to right. -/
def pyReplaceAux (patt repl : List Char) : Nat → List Char → List Char
  | _, [] => []
  | 0, l => l
  | fuel + 1, c :: rest =>
    if patt.isPrefixOf (c :: rest) then
      repl ++ pyReplaceAux patt repl fuel ((c :: rest).drop patt.length)
    else
      c :: pyReplaceAux patt repl fuel rest

/-- Python str.replace(old, new) for a non-empty old: replaces every
non-overlapping occurrence, scanning left to right. -/
def pyReplace (s patt repl : String) : String :=
  ⟨pyReplaceAux patt.data repl.data s.data.length s.data⟩

/-! ### Password hasher (passlib boundary)

Modelled from the library contract of passlib CryptContext with
schemes=["argon2"]: hash produces a self-describing string with an
algorithm tag; verify raises UnknownHashError when the hash string is not
a recognizable argon2 hash and otherwise reports whether the password
matches.  Salted argon2 hashing is idealized as the injective tagged
string below; the claims proved about it depend only on the tag check. -/

/-- Errors raised by passlib (UnknownHashError for unidentifiable hashes). -/
inductive PasslibError where
  | unknownHashError
deriving DecidableEq, Repr

/-- Idealized argon2 digest of a password (self-describing tag + payload). -/
def argon2HashOf (password : String) : String := "$argon2id$" ++ password

/-- security.get_password_hash: pwd_context.hash. -/
def get_password_hash (password : String) : String := argon2HashOf password

/-- pwd_context.verify: raises UnknownHashError unless the hash carries the
argon2 tag, else compares. -/
def pwdContextVerify (password hash : String) : Except PasslibError Bool :=
  if pyStartsWith hash "$argon2" then .ok (hash == argon2HashOf password)
  else .error .unknownHashError

/-- security.verify_password: returns pwd_context.verify(plain, hashed)
with no exception handling, so a library error propagates to the caller. -/
def verify_password (plain_password hashed_password : String) :
    Except PasslibError Bool :=
  pwdContextVerify plain_password hashed_password

/-! ### Data model (models.py) -/

/-- models.UserRole in this snapshot: only reader and writer are members.
(routers/auth.py also references UserRole.publisher and UserRole.admin,
which do not exist in models.py -- see the role-upgrade embedding.) -/
inductive UserRole where
  | reader
  | writer
deriving DecidableEq, Repr

/-- The .value string of a UserRole member. -/
def UserRole.value : UserRole → String
  | .reader => "reader"
  | .writer => "writer"

/-- models.AdminRole. -/
inductive AdminRole where
  | super_admin
  | content_admin
  | user_admin
  | publisher_admin
deriving DecidableEq, Repr

/-- The .value string of an AdminRole member. -/
def AdminRole.value : AdminRole → String
  | .super_admin => "super_admin"
  | .content_admin => "content_admin"
  | .user_admin => "user_admin"
  | .publisher_admin => "publisher_admin"

/-- models.User (columns used by the authentication subsystem). -/
structure User where
  id : Nat
  username : String
  full_name : Option String := none
  email : Option String := none
  hashed_password : String
  role : UserRole := .reader
  is_active : Bool := true
  is_verified : Bool := false
deriving DecidableEq, Repr

/-- models.Admin (columns used by the authentication subsystem). -/
structure Admin where
  id : Nat
  username : String
  email : String
  phone_number : Option String := none
  hashed_password : String
  role : AdminRole := .content_admin
  is_active : Bool := true
  is_super_admin : Bool := false
  last_login : Option Nat := none
  permissions : Option String := none
  can_manage_users : Bool := false
  can_manage_publishers : Bool := false
  can_manage_content : Bool := false
  can_manage_system : Bool := false
deriving DecidableEq, Repr

/-- models.PublisherHouse (columns used by the authentication subsystem). -/
structure PublisherHouse where
  id : Nat
  name : String
  email : String
  hashed_password : String
  is_active : Bool := true
  is_verified : Bool := false
deriving DecidableEq, Repr

/-- models.Book (columns used by the promotion guard). -/
structure Book where
  id : Nat
  author_id : Option Nat := none
deriving DecidableEq, Repr

/-- The database: the three disjoint principal tables plus books.
A query .filter(col == v).first() is List.find?. -/
structure DB where
  users : List User := []
  publishers : List PublisherHouse := []
  admins : List Admin := []
  books : List Book := []
deriving DecidableEq, Repr

/-! ### OTP ledger (security.py otp_storage / store_otp / verify_otp) -/

/-- One stored OTP entry: the code plus its absolute expiry time (seconds). -/
structure OtpEntry where
  otp : String
  expires_at : Nat
deriving DecidableEq, Repr

/-- The in-memory otp_storage dict: email to entry, unique keys. -/
abbrev OtpStorage := List (String × OtpEntry)

/-- Dict lookup in the OTP storage. -/
def otpLookup : OtpStorage → String → Option OtpEntry
  | [], _ => none
  | (k, e) :: rest, email => if k = email then some e else otpLookup rest email

/-- del otp_storage[email]. -/
def otpDelete (st : OtpStorage) (email : String) : OtpStorage :=
  st.filter (fun q => q.1 != email)

/-- security.store_otp: overwrites any prior entry for the email with a
fresh code expiring 5 minutes from now. -/
def store_otp (st : OtpStorage) (email otp : String) (now : Nat) : OtpStorage :=
  (st.filter (fun q => q.1 != email)) ++ [(email, ⟨otp, now + 5 * 60⟩)]

/-- security.verify_otp: false if no entry; on an expired entry the entry is
deleted and the result is false; on a code match the entry is deleted and
the result is true; on a mismatch the entry is kept and the result is
false.  Returns the result together with the updated storage. -/
def verify_otp (st : OtpStorage) (email otp : String) (now : Nat) :
    Bool × OtpStorage :=
  match otpLookup st email with
  | none => (false, st)
  | some stored =>
    if stored.expires_at < now then (false, otpDelete st email)
    else if stored.otp = otp then (true, otpDelete st email)
    else (false, st)

/-! ### Bearer-token extraction

security.get_bearer_token, unified_auth.get_bearer_token and
auth.get_bearer_token share one body; routers/admin_auth.get_bearer_token
differs (no empty-token check, shorter detail).  Python "if not
authorization" treats both a missing header and the empty string as
missing. -/

/-- 401 error for a missing Authorization header. -/
def authorizationHeaderMissing : HttpError :=
  ⟨401, "Authorization header missing", true⟩

/-- 401 error for a non-Bearer scheme (security.py variant detail). -/
def invalidAuthHeaderFormat : HttpError :=
  ⟨401, "Invalid authorization header format. Use \x27Bearer <token>\x27", true⟩

/-- 401 error for an empty token after the Bearer marker. -/
def tokenMissing : HttpError := ⟨401, "Token missing", true⟩

/-- 401 error for a non-Bearer scheme (admin_auth.py variant detail). -/
def adminInvalidAuthHeaderFormat : HttpError :=
  ⟨401, "Invalid authorization header format", true⟩

namespace Security

/-- security.get_bearer_token: requires a header of the form
"Bearer " ++ token; rejects a missing or empty header, a wrong scheme, and
a token that is empty after str.replace removes the marker. -/
def get_bearer_token (authorization : Option String) : Except HttpError String :=
  match authorization with
  | none => .error authorizationHeaderMissing
  | some a =>
    if a = "" then .error authorizationHeaderMissing
    else if !(pyStartsWith a "Bearer ") then .error invalidAuthHeaderFormat
    else
      let token := pyReplace a "Bearer " ""
      if token = "" then .error tokenMissing
      else .ok token

/-- Result of unified authentication in security.py: a User or a
PublisherHouse record. -/
inductive UserOrPublisher where
  | user (u : User)
  | publisher (p : PublisherHouse)
deriving DecidableEq, Repr

/-- security.get_current_unified_user: decodes the token; a subject
starting with "publisher_" is looked up in the PublisherHouse table by the
email obtained by str.replace deleting every occurrence of "publisher_",
any other subject in the User table by email; a missing record or an
inactive principal raises the same generic credentials exception.  A
non-string sub would crash on .startswith (uncaught AttributeError, 500). -/
def get_current_unified_user (token : Jwt) (db : DB) (now : Nat) :
    Except HttpError UserOrPublisher :=
  match jwtDecode token SECRET_KEY now with
  | .error _ => .error credentialsException
  | .ok payload =>
    match lookupKey payload "sub" with
    | none => .error credentialsException
    | some (.str email) =>
      if pyStartsWith email "publisher_" then
        let publisher_email := pyReplace email "publisher_" ""
        match db.publishers.find? (fun p => p.email == publisher_email) with
        | none => .error credentialsException
        | some p =>
          if !p.is_active then .error credentialsException
          else .ok (.publisher p)
      else
        match db.users.find? (fun u => u.email == some email) with
        | none => .error credentialsException
        | some u =>
          if !u.is_active then .error credentialsException
          else .ok (.user u)
    | some _ => .error internalServerError

end Security

namespace UnifiedAuth

/-- unified_auth.UnifiedUser: the uniform wrapper object returned by the
unified authentication path (kwargs flattened into optional fields). -/
structure UnifiedUser where
  id : Nat
  username : String
  role : String
  entity_type : String
  is_active : Bool
  is_verified : Bool
  email : Option String
  full_name : Option String := none
deriving DecidableEq, Repr

/-- 403 error rejecting admin tokens in the unified system. -/
def adminNotAllowed : HttpError :=
  ⟨403, "Admin authentication not allowed in unified system. Use /admin/login", false⟩

/-- unified_auth.get_unified_user: decodes the token; rejects a token whose
entity_type claim is "admin" with a 403; otherwise ignores the entity_type
tag and resolves the subject first against the User table by username and,
when no user matches, against the PublisherHouse table by name (the
payload value is compared against the column, so a non-string sub simply
matches nothing). -/
def get_unified_user (token : Jwt) (db : DB) (now : Nat) :
    Except HttpError UnifiedUser :=
  match jwtDecode token SECRET_KEY now with
  | .error _ => .error credentialsException
  | .ok payload =>
    match lookupKey payload "sub" with
    | none => .error credentialsException
    | some subv =>
      if lookupKey payload "entity_type" == some (.str "admin") then
        .error adminNotAllowed
      else
        match db.users.find? (fun u => JVal.str u.username == subv) with
        | some u =>
          .ok ⟨u.id, u.username, u.role.value, "user",
               u.is_active, u.is_verified, u.email, u.full_name⟩
        | none =>
          match db.publishers.find? (fun p => JVal.str p.name == subv) with
          | some p =>
            .ok ⟨p.id, p.name, "publisher", "publisher",
                 p.is_active, p.is_verified, some p.email, none⟩
          | none => .error credentialsException

/-- unified_auth.get_current_unified_user: wraps get_unified_user and
rejects an inactive principal with a distinct 400 "Inactive user". -/
def get_current_unified_user (token : Jwt) (db : DB) (now : Nat) :
    Except HttpError UnifiedUser :=
  match get_unified_user token db now with
  | .error e => .error e
  | .ok u =>
    if !u.is_active then .error ⟨400, "Inactive user", false⟩
    else .ok u

end UnifiedAuth

namespace AdminAuth

/-- routers/admin_auth.get_bearer_token: rejects a missing header and a
wrong scheme, but has no empty-token check -- it returns the result of
str.replace directly, so the header "Bearer " yields the empty token. -/
def get_bearer_token (authorization : Option String) : Except HttpError String :=
  match authorization with
  | none => .error authorizationHeaderMissing
  | some a =>
    if a = "" then .error authorizationHeaderMissing
    else if !(pyStartsWith a "Bearer ") then .error adminInvalidAuthHeaderFormat
    else .ok (pyReplace a "Bearer " "")

/-- routers/admin_auth.get_current_admin: decodes the token, requires the
entity_type claim to equal "admin", and looks the subject up in the Admin
table by username.  There is no is_active check on the admin record. -/
def get_current_admin (token : Jwt) (db : DB) (now : Nat) :
    Except HttpError Admin :=
  match jwtDecode token SECRET_KEY now with
  | .error _ => .error credentialsException
  | .ok payload =>
    match lookupKey payload "sub" with
    | none => .error credentialsException
    | some subv =>
      if lookupKey payload "entity_type" == some (.str "admin") then
        match db.admins.find? (fun a => JVal.str a.username == subv) with
        | some a => .ok a
        | none => .error credentialsException
      else .error credentialsException

/-- routers/admin_auth.admin_login: authenticates an admin by email and
password, rejects an inactive account with 400 after the password check,
stamps last_login, and issues a token whose data dict carries sub,
entity_type, role and is_super_admin (exp is added by
create_access_token). -/
def admin_login (email password : String) (db : DB) (now : Nat) :
    Except HttpError (Jwt × DB) :=
  match db.admins.find? (fun a => a.email == email) with
  | none => .error ⟨401, "Incorrect email or password", true⟩
  | some admin =>
    match verify_password password admin.hashed_password with
    | .error _ => .error internalServerError
    | .ok false => .error ⟨401, "Incorrect email or password", true⟩
    | .ok true =>
      if !admin.is_active then
        .error ⟨400, "Admin account is inactive", false⟩
      else
        let admin' := { admin with last_login := some now }
        let db' := { db with
          admins := db.admins.map (fun a => if a.id == admin.id then admin' else a) }
        let tok := create_access_token
          [("sub", .str admin.username),
           ("entity_type", .str "admin"),
           ("role", .str admin.role.value),
           ("is_super_admin", .bool admin.is_super_admin)]
          now (some (ACCESS_TOKEN_EXPIRE_MINUTES * 60))
        .ok (tok, db')

/-- schemas.AdminUpdate: optional phone number and permissions text (the
update handler only reads phone_number). -/
structure AdminUpdate where
  phone_number : Option String := none
  permissions : Option String := none
deriving DecidableEq, Repr

/-- The json.dumps text of the all-true permissions dict written by the
admin update handler. -/
def allPermissionsJson : String :=
  "\x7b\"can_manage_users\": true, \"can_manage_publishers\": true, \"can_manage_content\": true, \"can_manage_system\": true\x7d"

/-- The field updates applied by routers/admin_auth.update_admin to the
target record: optional phone number, then all capability flags and the
permissions text forced to the all-true values. -/
def applyAdminUpdate (a : Admin) (upd : AdminUpdate) : Admin :=
  let a1 := match upd.phone_number with
    | some ph => { a with phone_number := some ph }
    | none => a
  { a1 with
    permissions := some allPermissionsJson,
    can_manage_users := true,
    can_manage_publishers := true,
    can_manage_content := true,
    can_manage_system := true }

/-- routers/admin_auth.update_admin: any authenticated admin may update any
admin id, including their own -- the handler has no self-targeting check.
404 when the id is absent; otherwise the updates are committed and the
updated record returned. -/
def update_admin (admin_id : Nat) (upd : AdminUpdate) (current_admin : Admin)
    (db : DB) : Except HttpError Admin × DB :=
  match db.admins.find? (fun a => a.id == admin_id) with
  | none => (.error ⟨404, "Admin not found", false⟩, db)
  | some a =>
    let a' := applyAdminUpdate a upd
    (.ok a', { db with
      admins := db.admins.map (fun b => if b.id == admin_id then a' else b) })

/-- routers/admin_auth.delete_admin: 404 when the id is absent; when the
target is the acting admin the handler rejects with 400 "Cannot delete
your own account" and leaves the table unchanged; otherwise the row is
deleted. -/
def delete_admin (admin_id : Nat) (current_admin : Admin) (db : DB) :
    Except HttpError String × DB :=
  match db.admins.find? (fun a => a.id == admin_id) with
  | none => (.error ⟨404, "Admin not found", false⟩, db)
  | some a =>
    if a.id == current_admin.id then
      (.error ⟨400, "Cannot delete your own account", false⟩, db)
    else
      (.ok "Admin deleted successfully",
       { db with admins := db.admins.filter (fun b => b.id != admin_id) })

end AdminAuth

namespace PublisherAuth

/-- routers/publisher_auth.login_publisher_house: authenticates a publisher
house by email and password, rejects an inactive account with 400 after
the password check, and issues a token whose data dict carries only
sub = "publisher_" ++ email (exp is added by create_access_token). -/
def login_publisher_house (email password : String) (db : DB) (now : Nat) :
    Except HttpError Jwt :=
  match db.publishers.find? (fun p => p.email == email) with
  | none => .error ⟨401, "Incorrect email or password", true⟩
  | some p =>
    match verify_password password p.hashed_password with
    | .error _ => .error internalServerError
    | .ok false => .error ⟨401, "Incorrect email or password", true⟩
    | .ok true =>
      if !p.is_active then
        .error ⟨400, "Publisher house account is inactive", false⟩
      else
        .ok (create_access_token [("sub", .str ("publisher_" ++ p.email))]
              now (some (ACCESS_TOKEN_EXPIRE_MINUTES * 60)))

end PublisherAuth

namespace AuthRouter

/-- An error escaping a request handler: an HTTPException, or an uncaught
Python exception (an AttributeError raised by accessing an attribute or
enum member that does not exist in this snapshot), which surfaces as a
500. -/
inductive PyError where
  | http (e : HttpError)
  | attributeError (name : String)
deriving DecidableEq, Repr

/-- schemas.LoginRequest: only email and password.  It has no username
field, although routers/auth.login_for_access_token reads
login_data.username. -/
structure LoginRequest where
  email : String
  password : String
deriving DecidableEq, Repr

/-- routers/auth.login_for_access_token: the handler's first statement
builds the query filter User.username == login_data.username, but
schemas.LoginRequest carries no username attribute in this snapshot, so
every request raises AttributeError before any lookup, password check or
token issuance (the same module also imports the nonexistent
models.Publisher).  No token is ever issued by this flow. -/
def login_for_access_token (login_data : LoginRequest) (db : DB) (now : Nat) :
    Except PyError Jwt :=
  .error (.attributeError "LoginRequest.username")

/-- db.query(Book).filter(Book.author_id == user_id).count(). -/
def countAuthoredBooks (db : DB) (user_id : Nat) : Nat :=
  (db.books.filter (fun b => b.author_id == some user_id)).length

/-- routers/auth.upgrade_to_publisher: a non-writer is rejected with 400;
a writer with fewer than 3 authored books is rejected with 400 and no
state is touched; past both guards the handler evaluates
UserRole.publisher, which is not a member of models.UserRole in this
snapshot, so the assignment raises AttributeError before any commit. -/
def upgrade_to_publisher (current_user : User) (db : DB) :
    Except PyError User × DB :=
  if current_user.role ≠ .writer then
    (.error (.http ⟨400, "Only writers can upgrade to publisher role", false⟩), db)
  else if countAuthoredBooks db current_user.id < 3 then
    (.error (.http ⟨400, "Must have published at least 3 books to become a publisher", false⟩), db)
  else
    (.error (.attributeError "UserRole.publisher"), db)

end AuthRouter

/-! ### Concrete fixtures used by counterexamples and witnesses -/

/-- A stored argon2 hash for the demo password. -/
def pwHash : String := get_password_hash "pw12345678"

/-- A publisher house whose name collides with no username. -/
def acmePub : PublisherHouse :=
  { id := 1, name := "AcmePress", email := "acme@press.com",
    hashed_password := pwHash, is_active := true, is_verified := false }

/-- A database holding only the AcmePress publisher house. -/
def acmeDb : DB := { publishers := [acmePub] }

/-- A user-tagged token whose subject equals the publisher house name. -/
def userTagAcmeTok : Jwt :=
  { payload := [("sub", .str "AcmePress"), ("entity_type", .str "user"),
                ("exp", .num 100)],
    secret := SECRET_KEY }

/-- A deactivated admin account. -/
def inactiveAdmin : Admin :=
  { id := 7, username := "root2", email := "root2@example.com",
    hashed_password := pwHash, role := .super_admin,
    is_active := false, is_super_admin := true }

/-- A database holding only the deactivated admin. -/
def inactiveAdminDb : DB := { admins := [inactiveAdmin] }

/-- A structurally valid admin token for the deactivated admin. -/
def inactiveAdminTok : Jwt :=
  { payload := [("sub", .str "root2"), ("entity_type", .str "admin"),
                ("role", .str "super_admin"), ("exp", .num 100)],
    secret := SECRET_KEY }

/-- A deactivated ordinary user with an email address. -/
def inactiveUser : User :=
  { id := 3, username := "carol", email := some "carol@example.com",
    hashed_password := pwHash, role := .reader, is_active := false }

/-- A database holding only the deactivated user. -/
def inactiveUserDb : DB := { users := [inactiveUser] }

/-- A structurally valid token for the deactivated user (subject = email,
as issued on the security.py token path). -/
def inactiveUserTok : Jwt :=
  { payload := [("sub", .str "carol@example.com"), ("exp", .num 100)],
    secret := SECRET_KEY }

/-- An acting admin with id 5. -/
def actingAdmin : Admin :=
  { id := 5, username := "boss", email := "boss@example.com",
    hashed_password := pwHash, role := .super_admin,
    is_active := true, is_super_admin := true }

/-- A database holding only the acting admin. -/
def actingAdminDb : DB := { admins := [actingAdmin] }

/-- A registered user for the login flows. -/
def aliceUser : User :=
  { id := 1, username := "alice", email := some "alice@example.com",
    hashed_password := pwHash, role := .reader, is_active := true }

/-- A database holding only alice. -/
def aliceDb : DB := { users := [aliceUser] }

/-- An active writer. -/
def wallyWriter : User :=
  { id := 4, username := "wally", email := some "wally@example.com",
    hashed_password := pwHash, role := .writer, is_active := true }

/-- Database: wally with three authored books. -/
def wally3Db : DB :=
  { users := [wallyWriter],
    books := [{ id := 1, author_id := some 4 }, { id := 2, author_id := some 4 },
              { id := 3, author_id := some 4 }] }

/-- Database: wally with two authored books. -/
def wally2Db : DB :=
  { users := [wallyWriter],
    books := [{ id := 1, author_id := some 4 }, { id := 2, author_id := some 4 }] }

/-- A publisher house whose own email already begins with "publisher_". -/
def oddPub : PublisherHouse :=
  { id := 2, name := "OddPress", email := "publisher_a@b.com",
    hashed_password := pwHash, is_active := true, is_verified := false }

/-- A database holding only the odd publisher house. -/
def oddPubDb : DB := { publishers := [oddPub] }

/-- The token the publisher login flow issues at time 0 for the odd
publisher house: subject = "publisher_" ++ email =
"publisher_publisher_a@b.com", expiry 90 minutes. -/
def oddPubTok : Jwt :=
  { payload := [("sub", .str "publisher_publisher_a@b.com"), ("exp", .num 5400)],
    secret := SECRET_KEY }

/-- The token admin_login issues for the acting admin at time 0. -/
def bossAdminTok : Jwt :=
  { payload := [("sub", .str "boss"), ("entity_type", .str "admin"),
                ("role", .str "super_admin"), ("is_super_admin", .bool true),
                ("exp", .num 5400)],
    secret := SECRET_KEY }

/-- The database after the acting admin logs in at time 0 (last_login set). -/
def actingAdminDbAfterLogin : DB :=
  { admins := [{ actingAdmin with last_login := some 0 }] }

/-! ### Helper lemmas on payload dictionaries -/

/-- Removing the entries for key k leaves lookups of other keys unchanged. -/
theorem lookupKey_filter_ne (p : Payload) (k k' : String) (h : k' ≠ k) :
    lookupKey (p.filter fun q => q.1 != k) k' = lookupKey p k' := by
  have hkk : ¬(k = k') := fun hc => h hc.symm
  induction p with
  | nil => rfl
  | cons hd tl ih =>
    by_cases ha : hd.1 = k
    · simp [List.filter_cons, ha, lookupKey, hkk, ih]
    · by_cases hb : hd.1 = k'
      · simp [List.filter_cons, ha, lookupKey, hb, h]
      · simp [List.filter_cons, ha, lookupKey, hb, ih]

/-- After setKey the key maps to the written value. -/
theorem lookupKey_setKey_self (p : Payload) (k : String) (v : JVal) :
    lookupKey (setKey p k v) k = some v := by
  unfold setKey
  induction p with
  | nil => simp [lookupKey]
  | cons hd tl ih =>
    by_cases ha : hd.1 = k
    · simpa [List.filter_cons, ha] using ih
    · simpa [List.filter_cons, ha, lookupKey] using ih

/-- setKey leaves lookups of other keys unchanged. -/
theorem lookupKey_setKey_ne (p : Payload) (k k' : String) (v : JVal)
    (h : k' ≠ k) : lookupKey (setKey p k v) k' = lookupKey p k' := by
  have hkk : ¬(k = k') := fun hc => h hc.symm
  unfold setKey
  induction p with
  | nil => simp [lookupKey, hkk]
  | cons hd tl ih =>
    by_cases ha : hd.1 = k
    · simp [List.filter_cons, ha, lookupKey, hkk, ih]
    · by_cases hb : hd.1 = k'
      · simp [List.filter_cons, ha, lookupKey, hb, h]
      · simp [List.filter_cons, ha, lookupKey, hb, ih]

/-- Deleting an email from the OTP storage removes its entry. -/
theorem otpLookup_delete_self (st : OtpStorage) (email : String) :
    otpLookup (otpDelete st email) email = none := by
  unfold otpDelete
  induction st with
  | nil => rfl
  | cons hd tl ih =>
    by_cases ha : hd.1 = email
    · simp [List.filter_cons, ha, ih]
    · simp [List.filter_cons, ha, otpLookup, ih]

/-- Deleting an email leaves the other entries of the OTP storage alone. -/
theorem otpLookup_delete_ne (st : OtpStorage) (email email' : String)
    (h : email' ≠ email) :
    otpLookup (otpDelete st email) email' = otpLookup st email' := by
  have hkk : ¬(email = email') := fun hc => h hc.symm
  unfold otpDelete
  induction st with
  | nil => rfl
  | cons hd tl ih =>
    by_cases ha : hd.1 = email
    · simp [List.filter_cons, ha, otpLookup, hkk, ih]
    · by_cases hb : hd.1 = email'
      · simp [List.filter_cons, ha, otpLookup, hb, h]
      · simp [List.filter_cons, ha, otpLookup, hb, ih]

/-! ### Claim C1: cross-kind rejection -/

/-- Claim C1 (counterexample): a token tagged entity_type="user" whose
subject string coincides with a publisher house name is resolved against
the PublisherHouse store by unified_auth.get_unified_user -- it is not
rejected, so the principal-kind tag need not match the store the token
resolves against. -/
theorem c1_cross_kind_counterexample :
    lookupKey userTagAcmeTok.payload "entity_type" = some (.str "user")
    ∧ UnifiedAuth.get_unified_user userTagAcmeTok acmeDb 0 =
        .ok ⟨1, "AcmePress", "publisher", "publisher", true, false,
             some "acme@press.com", none⟩ :=
  ⟨rfl, rfl⟩

/-- Claim C1 (amended): in unified_auth.get_unified_user the entity_type
claim only rejects admin tokens; a token tagged entity_type="user" is
resolved against the User store by username first and, whenever no
username matches and a publisher house has the subject as its name,
against the PublisherHouse store, returning a publisher principal. -/
theorem c1_user_token_resolves_cross_kind
    (db : DB) (now : Nat) (tok : Jwt) (payload : Payload) (s : String)
    (p : PublisherHouse)
    (hdec : jwtDecode tok SECRET_KEY now = .ok payload)
    (hsub : lookupKey payload "sub" = some (.str s))
    (het : lookupKey payload "entity_type" = some (.str "user"))
    (hu : db.users.find? (fun u => JVal.str u.username == JVal.str s) = none)
    (hp : db.publishers.find? (fun q => JVal.str q.name == JVal.str s) = some p) :
    UnifiedAuth.get_unified_user tok db now =
      .ok ⟨p.id, p.name, "publisher", "publisher", p.is_active, p.is_verified,
           some p.email, none⟩ := by
  have hne : (lookupKey payload "entity_type" == some (JVal.str "admin")) = false := by
    rw [het]
    rfl
  simp [UnifiedAuth.get_unified_user, hdec, hsub, hne, hu, hp]

/-- Claim C1 (witness for the amended theorem at the AcmePress fixture). -/
theorem c1_user_token_resolves_cross_kind_witness :
    UnifiedAuth.get_unified_user userTagAcmeTok acmeDb 0 =
      .ok ⟨acmePub.id, acmePub.name, "publisher", "publisher",
           acmePub.is_active, acmePub.is_verified, some acmePub.email, none⟩ :=
  c1_user_token_resolves_cross_kind acmeDb 0 userTagAcmeTok
    userTagAcmeTok.payload "AcmePress" acmePub rfl rfl rfl rfl rfl

/-! ### Claim C2: inactive-account signal -/

/-- Claim C2 (counterexample): a deactivated Admin authenticates
successfully through routers/admin_auth.get_current_admin with a
structurally valid, unexpired admin token -- no InactiveAccount error, no
rejection at all. -/
theorem c2_inactive_admin_authenticates :
    inactiveAdmin.is_active = false
    ∧ AdminAuth.get_current_admin inactiveAdminTok inactiveAdminDb 0 =
        .ok inactiveAdmin :=
  ⟨rfl, rfl⟩

/-- Claim C2 (amended): in security.get_current_unified_user a valid token
for an inactive User or PublisherHouse is rejected, but with the same
generic 401 credentials exception as invalid credentials, not a distinct
InactiveAccount signal; and routers/admin_auth.get_current_admin performs
no active check, so a deactivated Admin authenticates successfully. -/
theorem c2_inactive_handling_amended :
    (∀ (db : DB) (now : Nat) (tok : Jwt) (payload : Payload) (s : String)
      (u : User),
      jwtDecode tok SECRET_KEY now = .ok payload →
      lookupKey payload "sub" = some (.str s) →
      pyStartsWith s "publisher_" = false →
      db.users.find? (fun v => v.email == some s) = some u →
      u.is_active = false →
      Security.get_current_unified_user tok db now = .error credentialsException)
    ∧ (∀ (db : DB) (now : Nat) (tok : Jwt) (payload : Payload) (s : String)
      (p : PublisherHouse),
      jwtDecode tok SECRET_KEY now = .ok payload →
      lookupKey payload "sub" = some (.str s) →
      pyStartsWith s "publisher_" = true →
      db.publishers.find? (fun q => q.email == pyReplace s "publisher_" "") = some p →
      p.is_active = false →
      Security.get_current_unified_user tok db now = .error credentialsException)
    ∧ (∀ (db : DB) (now : Nat) (tok : Jwt) (payload : Payload) (a : Admin),
      jwtDecode tok SECRET_KEY now = .ok payload →
      lookupKey payload "sub" = some (.str a.username) →
      lookupKey payload "entity_type" = some (.str "admin") →
      db.admins.find? (fun b => JVal.str b.username == JVal.str a.username) = some a →
      AdminAuth.get_current_admin tok db now = .ok a) := by
  refine ⟨?_, ?_, ?_⟩
  · intro db now tok payload s u hdec hsub hpre hfind hact
    simp [Security.get_current_unified_user, hdec, hsub, hpre, hfind, hact]
  · intro db now tok payload s p hdec hsub hpre hfind hact
    simp [Security.get_current_unified_user, hdec, hsub, hpre, hfind, hact]
  · intro db now tok payload a hdec hsub het hfind
    have hadm : (lookupKey payload "entity_type" == some (JVal.str "admin")) = true := by
      rw [het]
      rfl
    simp [AdminAuth.get_current_admin, hdec, hsub, hadm, hfind]

/-- Claim C2 (witness for the amended theorem: inactive user rejected with
the generic credentials exception, inactive admin accepted). -/
theorem c2_inactive_handling_amended_witness :
    Security.get_current_unified_user inactiveUserTok inactiveUserDb 0 =
      .error credentialsException
    ∧ AdminAuth.get_current_admin inactiveAdminTok inactiveAdminDb 0 =
        .ok inactiveAdmin :=
  ⟨c2_inactive_handling_amended.1 inactiveUserDb 0 inactiveUserTok
      inactiveUserTok.payload "carol@example.com" inactiveUser rfl rfl rfl rfl rfl,
   c2_inactive_handling_amended.2.2 inactiveAdminDb 0 inactiveAdminTok
      inactiveAdminTok.payload inactiveAdmin rfl rfl rfl rfl⟩

/-! ### Claim C3: admin self-protection -/

/-- Claim C3 (counterexample): the update-admin operation performed by the
admin with id 5 on admin id 5 is not rejected at all -- it succeeds and
returns the updated record; and even delete_admin rejects self-targeting
with status 400, not the Forbidden 403 category. -/
theorem c3_update_admin_self_not_rejected :
    actingAdmin.id = 5
    ∧ (AdminAuth.update_admin 5 ⟨none, none⟩ actingAdmin actingAdminDb).1 =
        .ok (AdminAuth.applyAdminUpdate actingAdmin ⟨none, none⟩)
    ∧ (AdminAuth.delete_admin 5 actingAdmin actingAdminDb).1 =
        .error ⟨400, "Cannot delete your own account", false⟩ :=
  ⟨rfl, rfl, rfl⟩

/-- Claim C3 (amended): only the delete-admin operation has a
self-protection guard, and it rejects with 400 Bad Request ("Cannot
delete your own account"), leaving the table unchanged; the update-admin
operation has no self check and succeeds on the acting admin's own id,
returning the record with the all-true permission flags applied. -/
theorem c3_self_protection_amended :
    (∀ (db : DB) (cur a : Admin),
      db.admins.find? (fun b => b.id == cur.id) = some a →
      AdminAuth.delete_admin cur.id cur db =
        (.error ⟨400, "Cannot delete your own account", false⟩, db))
    ∧ (∀ (db : DB) (cur : Admin) (upd : AdminAuth.AdminUpdate) (a : Admin),
      db.admins.find? (fun b => b.id == cur.id) = some a →
      (AdminAuth.update_admin cur.id upd cur db).1 =
        .ok (AdminAuth.applyAdminUpdate a upd)) := by
  constructor
  · intro db cur a hfind
    have hid : (a.id == cur.id) = true := by simpa using List.find?_some hfind
    simp [AdminAuth.delete_admin, hfind, hid]
  · intro db cur upd a hfind
    simp [AdminAuth.update_admin, hfind]

/-- Claim C3 (witness for the amended theorem at the id-5 acting admin). -/
theorem c3_self_protection_amended_witness :
    AdminAuth.delete_admin actingAdmin.id actingAdmin actingAdminDb =
      (.error ⟨400, "Cannot delete your own account", false⟩, actingAdminDb)
    ∧ (AdminAuth.update_admin actingAdmin.id ⟨none, none⟩ actingAdmin actingAdminDb).1 =
        .ok (AdminAuth.applyAdminUpdate actingAdmin ⟨none, none⟩) :=
  ⟨c3_self_protection_amended.1 actingAdminDb actingAdmin actingAdmin rfl,
   c3_self_protection_amended.2 actingAdminDb actingAdmin ⟨none, none⟩ actingAdmin rfl⟩

/-! ### Claim C4: token claim completeness -/

/-- Claim C4 (counterexample): a successful publisher login issues a token
whose payload carries only the subject and the expiry -- the entity_type
and role claims are absent -- so not every login flow carries all four
mandatory claims. -/
theorem c4_publisher_login_token_lacks_claims :
    PublisherAuth.login_publisher_house "publisher_a@b.com" "pw12345678" oddPubDb 0 =
      .ok oddPubTok
    ∧ lookupKey oddPubTok.payload "entity_type" = none
    ∧ lookupKey oddPubTok.payload "role" = none :=
  ⟨rfl, rfl, rfl⟩

/-- Claim C4 (amended): only the admin login flow issues tokens carrying
all four claims (subject, entity_type, role, expiry); the publisher login
flow issues tokens carrying only the subject and the expiry, with no
entity_type and no role claim; and the user login flow issues no token at
all in this snapshot -- it raises AttributeError on every request because
schemas.LoginRequest has no username field. -/
theorem c4_token_claims_amended :
    (∀ (email pw : String) (db : DB) (now : Nat) (tok : Jwt) (db' : DB),
      AdminAuth.admin_login email pw db now = .ok (tok, db') →
      (∃ s, lookupKey tok.payload "sub" = some (.str s))
      ∧ lookupKey tok.payload "entity_type" = some (.str "admin")
      ∧ (∃ r, lookupKey tok.payload "role" = some (.str r))
      ∧ (∃ e, lookupKey tok.payload "exp" = some (.num e)))
    ∧ (∀ (email pw : String) (db : DB) (now : Nat) (tok : Jwt),
      PublisherAuth.login_publisher_house email pw db now = .ok tok →
      (∃ s, lookupKey tok.payload "sub" = some (.str s))
      ∧ (∃ e, lookupKey tok.payload "exp" = some (.num e))
      ∧ lookupKey tok.payload "entity_type" = none
      ∧ lookupKey tok.payload "role" = none)
    ∧ (∀ (login_data : AuthRouter.LoginRequest) (db : DB) (now : Nat),
      AuthRouter.login_for_access_token login_data db now =
        .error (.attributeError "LoginRequest.username")) := by
  refine ⟨?_, ?_, ?_⟩
  · intro email pw db now tok db' h
    unfold AdminAuth.admin_login at h
    split at h
    · exact absurd h (by simp)
    · split at h
      · exact absurd h (by simp)
      · exact absurd h (by simp)
      · split at h
        · exact absurd h (by simp)
        · simp only [Except.ok.injEq, Prod.mk.injEq] at h
          obtain ⟨h1, h2⟩ := h
          subst h1
          refine ⟨⟨_, rfl⟩, rfl, ⟨_, rfl⟩, ⟨_, rfl⟩⟩
  · intro email pw db now tok h
    unfold PublisherAuth.login_publisher_house at h
    split at h
    · exact absurd h (by simp)
    · split at h
      · exact absurd h (by simp)
      · exact absurd h (by simp)
      · split at h
        · exact absurd h (by simp)
        · simp only [Except.ok.injEq] at h
          subst h
          refine ⟨⟨_, rfl⟩, ⟨_, rfl⟩, rfl, rfl⟩
  · intro login_data db now
    rfl

/-- Claim C4 (witness for the amended theorem: concrete admin and
publisher logins, and a concrete user login request that crashes even
though a registered user exists). -/
theorem c4_token_claims_amended_witness :
    lookupKey bossAdminTok.payload "entity_type" = some (.str "admin")
    ∧ (∃ r, lookupKey bossAdminTok.payload "role" = some (.str r))
    ∧ lookupKey oddPubTok.payload "role" = none
    ∧ AuthRouter.login_for_access_token ⟨"alice@example.com", "pw12345678"⟩ aliceDb 0 =
        .error (.attributeError "LoginRequest.username") := by
  have hadmin := c4_token_claims_amended.1 "boss@example.com" "pw12345678"
    actingAdminDb 0 bossAdminTok actingAdminDbAfterLogin (by rfl)
  have hpub := c4_token_claims_amended.2.1 "publisher_a@b.com" "pw12345678"
    oddPubDb 0 oddPubTok (by rfl)
  have huser := c4_token_claims_amended.2.2
    ⟨"alice@example.com", "pw12345678"⟩ aliceDb 0
  exact ⟨hadmin.2.1, hadmin.2.2.1, hpub.2.2.2, huser⟩

/-! ### Claim C5: writer-to-publisher promotion guard -/

/-- Claim C5 (behavior at the failing input): for an active writer, the
fewer-than-3-books guard fires with the 400 guard message and no state
change; with 3 authored books the guard passes but the handler then
evaluates UserRole.publisher -- a member that models.UserRole does not
define in this snapshot -- so the transition raises AttributeError
instead of succeeding, again with no state change. -/
theorem c5_promotion_guard_behavior :
    wallyWriter.role = .writer
    ∧ wallyWriter.is_active = true
    ∧ AuthRouter.countAuthoredBooks wally2Db wallyWriter.id = 2
    ∧ AuthRouter.upgrade_to_publisher wallyWriter wally2Db =
        (.error (.http ⟨400,
          "Must have published at least 3 books to become a publisher", false⟩),
         wally2Db)
    ∧ AuthRouter.countAuthoredBooks wally3Db wallyWriter.id = 3
    ∧ AuthRouter.upgrade_to_publisher wallyWriter wally3Db =
        (.error (.attributeError "UserRole.publisher"), wally3Db) :=
  ⟨rfl, rfl, rfl, rfl, rfl, rfl⟩

/-! ### Claim C6: token round-trip -/

/-- Claim C6: for every claim set c and ttl > 0, decoding the token issued
at time now with that ttl succeeds immediately and returns the claim set
with every field other than exp unchanged and exp embedded as now + ttl;
decoding the same token at any time past now + ttl fails with the expiry
error. -/
theorem c6_token_round_trip (c : Payload) (ttl now now' : Nat)
    (httl : 0 < ttl) (hpast : now + ttl < now') :
    jwtDecode (create_access_token c now (some ttl)) SECRET_KEY now =
      .ok (setKey c "exp" (.num (now + ttl)))
    ∧ (∀ k, k ≠ "exp" →
        lookupKey (setKey c "exp" (.num (now + ttl))) k = lookupKey c k)
    ∧ lookupKey (setKey c "exp" (.num (now + ttl))) "exp" = some (.num (now + ttl))
    ∧ jwtDecode (create_access_token c now (some ttl)) SECRET_KEY now' =
      .error .expired := by
  have hle : ¬(now + ttl < now) := by omega
  refine ⟨?_, ?_, lookupKey_setKey_self c "exp" _, ?_⟩
  · simp [jwtDecode, create_access_token, lookupKey_setKey_self, hle]
  · intro k hk
    exact lookupKey_setKey_ne c "exp" k _ hk
  · simp [jwtDecode, create_access_token, lookupKey_setKey_self, hpast]

/-- Claim C6 (witness at a concrete claim set, ttl 60, clock 0 then 61;
the sub field survives and a pre-existing exp entry is overwritten). -/
theorem c6_token_round_trip_witness :
    ((0 : Nat) < 60 ∧ (0 : Nat) + 60 < 61)
    ∧ jwtDecode
        (create_access_token [("sub", JVal.str "alice"), ("exp", JVal.num 999)] 0 (some 60))
        SECRET_KEY 0 =
        .ok (setKey [("sub", JVal.str "alice"), ("exp", JVal.num 999)] "exp" (.num 60))
    ∧ lookupKey (setKey [("sub", JVal.str "alice"), ("exp", JVal.num 999)] "exp" (.num 60)) "sub" =
        lookupKey [("sub", JVal.str "alice"), ("exp", JVal.num 999)] "sub"
    ∧ jwtDecode
        (create_access_token [("sub", JVal.str "alice"), ("exp", JVal.num 999)] 0 (some 60))
        SECRET_KEY 61 = .error .expired := by
  have h := c6_token_round_trip [("sub", JVal.str "alice"), ("exp", JVal.num 999)]
    60 0 61 (by decide) (by decide)
  exact ⟨⟨by decide, by decide⟩, h.1, h.2.1 "sub" (by decide), h.2.2.2⟩

/-! ### Claim C7: OTP one-time use -/

/-- Claim C7: verify_otp returns true and removes the stored entry exactly
when an entry for the email exists, is unexpired, and its stored code
equals the supplied code; otherwise it returns false; and after one
successful verification a second verification with the same email and
code returns false, at any later clock value. -/
theorem c7_verify_otp_one_time (st : OtpStorage) (email code : String) (now : Nat) :
    (((verify_otp st email code now).1 = true
        ∧ otpLookup (verify_otp st email code now).2 email = none)
      ↔ ∃ e, otpLookup st email = some e ∧ ¬e.expires_at < now ∧ e.otp = code)
    ∧ ((verify_otp st email code now).1 = true →
        ∀ now', (verify_otp (verify_otp st email code now).2 email code now').1 = false) := by
  constructor
  · cases hlook : otpLookup st email with
    | none => simp [verify_otp, hlook]
    | some e =>
      by_cases hexp : e.expires_at < now
      · simp [verify_otp, hlook, hexp]
      · by_cases hcode : e.otp = code
        · have hle : now ≤ e.expires_at := Nat.not_lt.mp hexp
          simp [verify_otp, hlook, hexp, hcode, otpLookup_delete_self, hle]
        · simp [verify_otp, hlook, hexp, hcode]
  · intro htrue now'
    cases hlook : otpLookup st email with
    | none => simp [verify_otp, hlook] at htrue
    | some e =>
      by_cases hexp : e.expires_at < now
      · simp [verify_otp, hlook, hexp] at htrue
      · by_cases hcode : e.otp = code
        · simp [verify_otp, hlook, hexp, hcode, otpLookup_delete_self]
        · simp [verify_otp, hlook, hexp, hcode] at htrue

/-- Claim C7 (witness: issue "123456" for "a@b.com" at time 0, verify at
time 10 returns true, verifying again returns false). -/
theorem c7_verify_otp_one_time_witness :
    (verify_otp (store_otp [] "a@b.com" "123456" 0) "a@b.com" "123456" 10).1 = true
    ∧ (verify_otp (verify_otp (store_otp [] "a@b.com" "123456" 0) "a@b.com" "123456" 10).2
        "a@b.com" "123456" 10).1 = false := by
  have hfirst : (verify_otp (store_otp [] "a@b.com" "123456" 0) "a@b.com" "123456" 10).1 = true := by
    decide
  exact ⟨hfirst,
    (c7_verify_otp_one_time (store_otp [] "a@b.com" "123456" 0) "a@b.com" "123456" 10).2
      hfirst 10⟩

/-! ### Claim C8: bearer header validation -/

/-- Claim C8 (counterexample): the admin-router token extractor accepts the
header "Bearer " -- a Bearer scheme with an empty token -- and returns the
empty string instead of failing with 401, so an empty token does reach
the decoder on the admin path. -/
theorem c8_admin_extractor_accepts_empty_token :
    AdminAuth.get_bearer_token (some "Bearer ") = .ok "" :=
  rfl

/-- Claim C8 (amended): the user/publisher extractor
(security.get_bearer_token, shared by unified_auth.py and auth.py)
rejects a missing or empty header, a non-Bearer scheme, and an empty
token, each with a 401 carrying WWW-Authenticate: Bearer; the admin
extractor rejects the first two cases the same way but has no empty-token
check and returns the empty string for the header "Bearer ". -/
theorem c8_bearer_header_amended :
    Security.get_bearer_token none = .error authorizationHeaderMissing
    ∧ Security.get_bearer_token (some "") = .error authorizationHeaderMissing
    ∧ (∀ a : String, a ≠ "" → pyStartsWith a "Bearer " = false →
        Security.get_bearer_token (some a) = .error invalidAuthHeaderFormat)
    ∧ Security.get_bearer_token (some "Bearer ") = .error tokenMissing
    ∧ [authorizationHeaderMissing, invalidAuthHeaderFormat, tokenMissing,
        adminInvalidAuthHeaderFormat].map
        (fun e => (e.status_code, e.www_authenticate_bearer)) =
        [(401, true), (401, true), (401, true), (401, true)]
    ∧ AdminAuth.get_bearer_token none = .error authorizationHeaderMissing
    ∧ AdminAuth.get_bearer_token (some "") = .error authorizationHeaderMissing
    ∧ (∀ a : String, a ≠ "" → pyStartsWith a "Bearer " = false →
        AdminAuth.get_bearer_token (some a) = .error adminInvalidAuthHeaderFormat)
    ∧ AdminAuth.get_bearer_token (some "Bearer ") = .ok "" := by
  refine ⟨rfl, rfl, ?_, rfl, rfl, rfl, rfl, ?_, rfl⟩
  · intro a ha hb
    simp [Security.get_bearer_token, ha, hb]
  · intro a ha hb
    simp [AdminAuth.get_bearer_token, ha, hb]

/-- Claim C8 (witness for the amended theorem at a Basic-scheme header). -/
theorem c8_bearer_header_amended_witness :
    Security.get_bearer_token (some "Basic xyz") = .error invalidAuthHeaderFormat
    ∧ AdminAuth.get_bearer_token (some "Basic xyz") =
        .error adminInvalidAuthHeaderFormat :=
  ⟨c8_bearer_header_amended.2.2.1 "Basic xyz" (by decide) (by decide),
   c8_bearer_header_amended.2.2.2.2.2.2.2.1 "Basic xyz" (by decide) (by decide)⟩

/-! ### Claim C9: password verify totality -/

/-- Claim C9 (counterexample): on a malformed hash input, verify_password
does not return false -- the passlib UnknownHashError propagates out of
the function, since the source wraps pwd_context.verify with no exception
handling. -/
theorem c9_verify_password_raises_on_malformed_hash :
    verify_password "pw" "not-a-hash" = .error .unknownHashError :=
  rfl

/-- Claim C9 (amended): verify_password returns a boolean for hash strings
the argon2 context recognizes; for a malformed hash it propagates the
library's UnknownHashError to the caller rather than returning false. -/
theorem c9_verify_password_amended (password hash : String) :
    (pyStartsWith hash "$argon2" = true →
      verify_password password hash = .ok (hash == argon2HashOf password))
    ∧ (pyStartsWith hash "$argon2" = false →
      verify_password password hash = .error .unknownHashError) := by
  constructor
  · intro h
    simp [verify_password, pwdContextVerify, h]
  · intro h
    simp [verify_password, pwdContextVerify, h]

/-- Claim C9 (witness for the amended theorem: a stored argon2 hash
verifies, a malformed string errors). -/
theorem c9_verify_password_amended_witness :
    verify_password "pw12345678" pwHash = .ok true
    ∧ verify_password "pw" "not-a-hash-string" = .error .unknownHashError := by
  constructor
  · have h := (c9_verify_password_amended "pw12345678" pwHash).1 (by decide)
    have hv : (pwHash == argon2HashOf "pw12345678") = true := by decide
    rw [hv] at h
    exact h
  · exact (c9_verify_password_amended "pw" "not-a-hash-string").2 (by decide)

/-! ### Claim C10: publisher token namespace dispatch -/

/-- Claim C10 (counterexample): the lookup key is not the subject with the
"publisher_" prefix stripped -- Python str.replace deletes every
occurrence of "publisher_".  For the publisher house whose own email is
"publisher_a@b.com", the login flow issues the subject
"publisher_publisher_a@b.com"; a publisher with email equal to the
prefix-stripped subject exists and is active, yet authentication rejects
the token because the replace-all key "a@b.com" matches nothing. -/
theorem c10_prefix_strip_counterexample :
    PublisherAuth.login_publisher_house "publisher_a@b.com" "pw12345678" oddPubDb 0 =
      .ok oddPubTok
    ∧ lookupKey oddPubTok.payload "sub" =
        some (.str "publisher_publisher_a@b.com")
    ∧ pyStartsWith "publisher_publisher_a@b.com" "publisher_" = true
    ∧ String.mk (("publisher_publisher_a@b.com" : String).data.drop 10) =
        oddPub.email
    ∧ oddPub.is_active = true
    ∧ oddPubDb.publishers = [oddPub]
    ∧ Security.get_current_unified_user oddPubTok oddPubDb 0 =
        .error credentialsException :=
  ⟨rfl, rfl, rfl, rfl, rfl, rfl, rfl⟩

/-- Claim C10 (amended): dispatch in security.get_current_unified_user is
decided solely by whether the subject starts with "publisher_"; such a
token is resolved against the PublisherHouse store by the email obtained
by deleting every occurrence of "publisher_" from the subject (not by
stripping only the prefix), and is never resolved as a User; a subject
without the prefix is never resolved as a PublisherHouse. -/
theorem c10_publisher_dispatch_amended :
    (∀ (db : DB) (now : Nat) (tok : Jwt) (payload : Payload) (s : String),
      jwtDecode tok SECRET_KEY now = .ok payload →
      lookupKey payload "sub" = some (.str s) →
      pyStartsWith s "publisher_" = true →
      (Security.get_current_unified_user tok db now =
        (match db.publishers.find? (fun p => p.email == pyReplace s "publisher_" "") with
         | none => .error credentialsException
         | some p =>
           if !p.is_active then .error credentialsException
           else .ok (.publisher p)))
      ∧ ∀ u, Security.get_current_unified_user tok db now ≠ .ok (.user u))
    ∧ (∀ (db : DB) (now : Nat) (tok : Jwt) (payload : Payload) (s : String),
      jwtDecode tok SECRET_KEY now = .ok payload →
      lookupKey payload "sub" = some (.str s) →
      pyStartsWith s "publisher_" = false →
      ∀ p, Security.get_current_unified_user tok db now ≠ .ok (.publisher p)) := by
  constructor
  · intro db now tok payload s hdec hsub hpre
    constructor
    · simp [Security.get_current_unified_user, hdec, hsub, hpre]
    · intro u heq
      simp [Security.get_current_unified_user, hdec, hsub, hpre] at heq
      cases hfind : db.publishers.find?
          (fun p => p.email == pyReplace s "publisher_" "") with
      | none => rw [hfind] at heq; exact absurd heq (by simp)
      | some p =>
        rw [hfind] at heq
        by_cases hact : p.is_active
        · simp [hact] at heq
        · simp [hact] at heq
  · intro db now tok payload s hdec hsub hpre p heq
    simp [Security.get_current_unified_user, hdec, hsub, hpre] at heq
    cases hfind : db.users.find? (fun u => u.email == some s) with
    | none => rw [hfind] at heq; exact absurd heq (by simp)
    | some u =>
      rw [hfind] at heq
      by_cases hact : u.is_active
      · simp [hact] at heq
      · simp [hact] at heq

/-- Claim C10 (witness for the amended theorem at the odd publisher
fixture). -/
theorem c10_publisher_dispatch_amended_witness :
    Security.get_current_unified_user oddPubTok oddPubDb 0 =
      (match oddPubDb.publishers.find?
          (fun p => p.email == pyReplace "publisher_publisher_a@b.com" "publisher_" "") with
       | none => .error credentialsException
       | some p =>
         if !p.is_active then .error credentialsException
         else .ok (.publisher p)) :=
  (c10_publisher_dispatch_amended.1 oddPubDb 0 oddPubTok oddPubTok.payload
    "publisher_publisher_a@b.com" rfl rfl rfl).1

end BookPlatform
